import Mathlib

/-!
Verification of the DubiFitness backend core: the booking admission
controller (`src/routes/bookings.ts`) and the payment reconciliation
engine (`src/routes/payments.ts`).

The database is modelled as in-memory lists of rows kept in insertion
order (SQLite rowid order); a drizzle `select().where(p).limit(1)`
becomes `(rows.filter p).head?`, an `update().set(u).where(p)` becomes
a map that rewrites exactly the rows satisfying `p`, and an `insert`
appends at the end of the list.  Status columns are kept as the string
literals the source uses.
-/

namespace DubiFitness

/-- Generic model of `db.update(table).set(f).where(q)`: rewrite the rows
satisfying `q` with `f`, leave the rest alone. -/
def updWhere (q : α → Bool) (f : α → α) (l : List α) : List α :=
  l.map fun a => if q a then f a else a

/-! ## Booking data model (`bookings` and `classes` tables) -/

/-- Row of the `classes` table, reduced to the columns the booking
routes read (`id`, `capacity`, `isActive`). -/
structure ClassSession where
  id : Nat
  capacity : Nat
  isActive : Bool
deriving Repr, DecidableEq

/-- Row of the `bookings` table, reduced to the columns the booking
routes read or write. -/
structure Booking where
  id : Nat
  userId : Nat
  classId : Nat
  status : String
  notes : Option String
  bookedAt : Nat
  cancelledAt : Option Nat
  updatedAt : Nat
deriving Repr, DecidableEq

/-- Persistent state seen by the booking routes: the two tables plus the
autoincrement counter for `bookings.id`. -/
structure BookingState where
  classes : List ClassSession
  bookings : List Booking
  nextId : Nat
deriving Repr, DecidableEq

/-- Outcome of `POST /bookings`: 404 class missing or inactive, 400
conflict (already booked), or 201 with the derived status. -/
inductive CreateResult where
  | notFound
  | conflict
  | created (status : String)
deriving Repr, DecidableEq

/-- Outcome of `PATCH /bookings/:id/cancel`: 404, 400 already cancelled,
or 200. -/
inductive CancelResult where
  | notFound
  | alreadyCancelled
  | ok
deriving Repr, DecidableEq

/-- The confirmed-reservation count the capacity check runs:
`count(*) from bookings where classId = ? and status = 'confirmed'`. -/
def countConfirmed (s : BookingState) (classId : Nat) : Nat :=
  (s.bookings.filter fun b => b.classId == classId && b.status == "confirmed").length

/-- Waitlisted-reservation count for a class, same shape as
`countConfirmed` with status `'waitlist'`. -/
def countWaitlist (s : BookingState) (classId : Nat) : Nat :=
  (s.bookings.filter fun b => b.classId == classId && b.status == "waitlist").length

/-- The `POST /` handler of `bookings.ts` (lines 17-75): look up the
class (404 when absent or inactive), reject when the user already has a
`'confirmed'` booking for the class, derive `'confirmed'` or
`'waitlist'` from the capacity check, and insert the new row with
`bookedAt = now`. -/
def createBooking (s : BookingState) (userId classId : Nat)
    (notes : Option String) (now : Nat) : BookingState × CreateResult :=
  match (s.classes.filter fun c => c.id == classId).head? with
  | none => (s, .notFound)
  | some c =>
    if !c.isActive then (s, .notFound)
    else
      let existingBooking := s.bookings.filter fun b =>
        b.userId == userId && b.classId == classId && b.status == "confirmed"
      if existingBooking.length > 0 then (s, .conflict)
      else
        let currentBookings := countConfirmed s classId
        let status := if currentBookings ≥ c.capacity then "waitlist" else "confirmed"
        let nb : Booking :=
          { id := s.nextId, userId := userId, classId := classId, status := status,
            notes := notes, bookedAt := now, cancelledAt := none, updatedAt := now }
        ({ s with bookings := s.bookings ++ [nb], nextId := s.nextId + 1 }, .created status)

/-- The `PATCH /:bookingId/cancel` handler of `bookings.ts` (lines
144-196): find the booking by id and owner (404), refuse a double
cancel (400), set the row to `'cancelled'`, and when the prior status
was `'confirmed'` promote the first `'waitlist'` row of the same class
returned by the (unordered) `limit(1)` query. -/
def cancelBooking (s : BookingState) (bookingId userId : Nat) (now : Nat) :
    BookingState × CancelResult :=
  match (s.bookings.filter fun b => b.id == bookingId && b.userId == userId).head? with
  | none => (s, .notFound)
  | some b =>
    if b.status == "cancelled" then (s, .alreadyCancelled)
    else
      let cancelledRows :=
        updWhere (fun x => x.id == bookingId)
          (fun x =>
            { x with status := "cancelled", cancelledAt := some now, updatedAt := now })
          s.bookings
      let s1 : BookingState := { s with bookings := cancelledRows }
      if b.status == "confirmed" then
        match (s1.bookings.filter fun x =>
            x.classId == b.classId && x.status == "waitlist").head? with
        | none => (s1, .ok)
        | some w =>
          let promotedRows :=
            updWhere (fun x => x.id == w.id)
              (fun x => { x with status := "confirmed", updatedAt := now })
              s1.bookings
          ({ s1 with bookings := promotedRows }, .ok)
      else (s1, .ok)

/-- Sequential driver: run `createBooking` once per user, in order,
threading the state; returns the final state and the per-request
results. -/
def createMany (s : BookingState) (classId : Nat) (users : List Nat) (now : Nat) :
    BookingState × List CreateResult :=
  match users with
  | [] => (s, [])
  | u :: rest =>
    let p := createBooking s u classId none now
    let q := createMany p.1 classId rest now
    (q.1, p.2 :: q.2)

/-! ## Payment reconciliation data model (`payments`, `subscription_payments`,
`subscriptions` tables and the MercadoPago gateway) -/

/-- Row of the `payments` table, reduced to what the webhook touches. -/
structure Payment where
  id : Nat
  status : String
  mercadopagoId : Option String
  paymentDate : Option Nat
  metadata : List (String × String)
  updatedAt : Nat
deriving Repr, DecidableEq

/-- Row of the `subscription_payments` table, reduced to what the
webhook touches. -/
structure SubscriptionPayment where
  id : Nat
  subscriptionId : Nat
  status : String
  mercadopagoId : Option String
  paidAt : Option Nat
  metadata : List (String × String)
  updatedAt : Nat
deriving Repr, DecidableEq

/-- Row of the `subscriptions` table, reduced to what the webhook
touches. -/
structure Subscription where
  id : Nat
  status : String
  updatedAt : Nat
deriving Repr, DecidableEq

/-- Persistent state seen by the payment webhook. -/
structure PayState where
  payments : List Payment
  subscriptionPayments : List SubscriptionPayment
  subscriptions : List Subscription
deriving Repr, DecidableEq

/-- The canonical payment object `mercadopago.payment.findById` returns,
reduced to the fields the webhook reads.  `external_reference` is kept
already parsed: `none` stands for an absent, empty or unparseable
reference (the `!mpPayment.external_reference` guard). -/
structure MPPayment where
  id : Nat
  status : String
  externalReference : Option Nat
  dateApproved : Option Nat
  statusDetail : String
  paymentMethodId : String
  paymentTypeId : String
deriving Repr, DecidableEq

/-- Result of the outbound `mercadopago.payment.findById` call: the
promise may reject (`throws`), resolve to a falsy value (`missing`), or
resolve to a payment object. -/
inductive GatewayResult where
  | throws
  | missing
  | found (mp : MPPayment)
deriving Repr, DecidableEq

/-- The external gateway, as a map from payment id to fetch outcome. -/
def Gateway : Type := String → GatewayResult

/-- Observable side effects of one webhook delivery, used to state that
the approval hooks do or do not run. -/
inductive PEvent where
  | paymentUpdated (id : Nat) (st : String)
  | paymentApprovedHook (id : Nat)
  | subPaymentUpdated (id : Nat) (st : String)
  | subApprovedHook (id : Nat)
deriving Repr, DecidableEq

/-- The status-mapping helper of `payments.ts` (lines 412-424). -/
def mapMercadoPagoStatus (mpStatus : String) : String :=
  match mpStatus with
  | "approved" => "approved"
  | "cancelled" => "cancelled"
  | "rejected" => "cancelled"
  | "refunded" => "refunded"
  | _ => "pending"

/-- The webhook diagnostic fields merged into the metadata bag (the
object-spread in the `set` clauses of `payments.ts`). -/
def webhookMeta (mp : MPPayment) (action : String) (now : Nat) : List (String × String) :=
  [("mercadopago_status", mp.status),
   ("mercadopago_status_detail", mp.statusDetail),
   ("payment_method_id", mp.paymentMethodId),
   ("payment_type_id", mp.paymentTypeId),
   ("last_webhook_action", action),
   ("last_webhook_date", toString now)]

/-- JavaScript object spread on string maps: keys of the new bag
override keys of the old one. -/
def mergeMeta (old new : List (String × String)) : List (String × String) :=
  (old.filter fun kv => !(new.any fun kv2 => kv2.1 == kv.1)) ++ new

/-- The `handleSubscriptionPaymentApproved` helper (lines 262-285): set
the linked subscription to `'active'`.  The try/catch swallows a failed
update, which `updateFails` models: when true the subscriptions table is
left untouched and no error escapes. -/
def handleSubscriptionPaymentApproved (updateFails : Bool)
    (sp : SubscriptionPayment) (now : Nat) (s : PayState) : PayState :=
  if updateFails then s
  else
    let activatedRows :=
      updWhere (fun sub => sub.id == sp.subscriptionId)
        (fun sub => { sub with status := "active", updatedAt := now })
        s.subscriptions
    { s with subscriptions := activatedRows }

/-- The `processSubscriptionPaymentWebhook` helper (lines 222-260): the
idempotency gate compares the stored status with the mapped one; on a
change the row is rewritten, and on the not-approved-to-approved edge
the activation hook runs. -/
def processSubscriptionPaymentWebhook (updateFails : Bool)
    (sp : SubscriptionPayment) (newStatus : String) (mp : MPPayment)
    (action : String) (now : Nat) (s : PayState) : PayState × List PEvent :=
  if sp.status != newStatus then
    let updatedRows :=
      updWhere (fun q => q.id == sp.id)
        (fun q =>
          { q with status := newStatus, mercadopagoId := some (toString mp.id),
                   paidAt := mp.dateApproved, updatedAt := now,
                   metadata := mergeMeta sp.metadata (webhookMeta mp action now) })
        s.subscriptionPayments
    let s1 : PayState := { s with subscriptionPayments := updatedRows }
    if newStatus == "approved" && sp.status != "approved" then
      (handleSubscriptionPaymentApproved updateFails sp now s1,
       [.subPaymentUpdated sp.id newStatus, .subApprovedHook sp.id])
    else (s1, [.subPaymentUpdated sp.id newStatus])
  else (s, [])

/-- The `processPaymentWebhook` helper (lines 146-219): fetch the
gateway object (a rejected fetch is caught, logged and re-thrown, hence
`Except`), abort silently on a falsy payment or reference, map the
status, try the subscription-payment branch first and the one-off
payment branch second, and apply the idempotent update with the
approval hook on the not-approved-to-approved edge. -/
def processPaymentWebhook (gw : Gateway) (updateFails : Bool)
    (paymentId action : String) (now : Nat) (s : PayState) :
    Except Unit (PayState × List PEvent) :=
  match gw paymentId with
  | .throws => .error ()
  | .missing => .ok (s, [])
  | .found mp =>
    match mp.externalReference with
    | none => .ok (s, [])
    | some ref =>
      let newStatus := mapMercadoPagoStatus mp.status
      match (s.subscriptionPayments.filter fun sp => sp.id == ref).head? with
      | some sp =>
        .ok (processSubscriptionPaymentWebhook updateFails sp newStatus mp action now s)
      | none =>
        match (s.payments.filter fun p => p.id == ref).head? with
        | none => .ok (s, [])
        | some currentPayment =>
          if currentPayment.status != newStatus then
            let updatedRows :=
              updWhere (fun q => q.id == ref)
                (fun q =>
                  { q with status := newStatus, mercadopagoId := some paymentId,
                           paymentDate := mp.dateApproved, updatedAt := now,
                           metadata := mergeMeta currentPayment.metadata
                             (webhookMeta mp action now) })
                s.payments
            let s1 : PayState := { s with payments := updatedRows }
            if newStatus == "approved" && currentPayment.status != "approved" then
              (.ok (s1, [.paymentUpdated ref newStatus, .paymentApprovedHook ref]))
            else .ok (s1, [.paymentUpdated ref newStatus])
          else .ok (s, [])

/-- Response of `POST /payments/webhook`: 400 invalid envelope, 200 with
the `received`/`processed` flags, or 500 when processing throws. -/
inductive WebhookResponse where
  | badRequest
  | ok (received processed : Bool)
  | serverError
deriving Repr, DecidableEq

/-- Webhook envelope `req.body`, reduced to the fields the handler
reads; `dataId` is `none` when `data` or `data.id` is absent. -/
structure Envelope where
  type : Option String
  dataId : Option String
  action : String
deriving Repr, DecidableEq

/-- JavaScript truthiness test `!x` on an optional string: absent or
empty is falsy. -/
def jsFalsy : Option String → Bool
  | none => true
  | some s => s == ""

/-- The `POST /webhook` handler (lines 99-143): validate the envelope
with the truthiness test `!type || !data || !data.id`, dispatch on
`type` (only `'payment'` changes state; `'subscription'`, `'preapproval'`
and unknown types are logged no-ops), answer 200 on completion and 500
when the dispatched processing throws. -/
def handleWebhook (gw : Gateway) (updateFails : Bool) (env : Envelope)
    (now : Nat) (s : PayState) : PayState × List PEvent × WebhookResponse :=
  if jsFalsy env.type || jsFalsy env.dataId then (s, [], .badRequest)
  else
    let t := env.type.getD ""
    if t == "payment" then
      match processPaymentWebhook gw updateFails (env.dataId.getD "") env.action now s with
      | .ok (s1, evs) => (s1, evs, .ok true true)
      | .error _ => (s, [], .serverError)
    else (s, [], .ok true true)

/-! ## Generic lemmas about the table model -/

theorem updWhere_cons (q : α → Bool) (f : α → α) (x : α) (xs : List α) :
    updWhere q f (x :: xs) = (if q x then f x else x) :: updWhere q f xs := rfl

theorem head?_filter_mem {p : α → Bool} {l : List α} {a : α}
    (h : (l.filter p).head? = some a) : a ∈ l ∧ p a = true := by
  induction l with
  | nil => simp at h
  | cons x xs ih =>
    rw [List.filter_cons] at h
    by_cases hx : p x = true
    · rw [if_pos hx, List.head?_cons] at h
      obtain rfl : x = a := Option.some.inj h
      exact ⟨List.mem_cons_self _ _, hx⟩
    · rw [if_neg hx] at h
      have := ih h
      exact ⟨List.mem_cons_of_mem _ this.1, this.2⟩

theorem head?_filter_min (R : α → α → Prop) {p : α → Bool} {l : List α} {w : α}
    (hp : l.Pairwise R) (h : (l.filter p).head? = some w) :
    ∀ x ∈ l, p x = true → x = w ∨ R w x := by
  induction l with
  | nil => simp
  | cons y ys ih =>
    rw [List.pairwise_cons] at hp
    rw [List.filter_cons] at h
    by_cases hy : p y = true
    · rw [if_pos hy, List.head?_cons] at h
      obtain rfl : y = w := Option.some.inj h
      intro x hx hpx
      rcases List.mem_cons.mp hx with rfl | hx
      · exact Or.inl rfl
      · exact Or.inr (hp.1 x hx)
    · rw [if_neg hy] at h
      intro x hx hpx
      rcases List.mem_cons.mp hx with rfl | hx
      · exact absurd hpx hy
      · exact ih hp.2 h x hx hpx

theorem filter_updWhere_eq {p q : α → Bool} {f : α → α} {l : List α}
    (h : ∀ a ∈ l, q a = true → p a = false ∧ p (f a) = false) :
    (updWhere q f l).filter p = l.filter p := by
  induction l with
  | nil => rfl
  | cons x xs ih =>
    rw [updWhere_cons, List.filter_cons, List.filter_cons]
    have tail := ih fun a ha hqa => h a (List.mem_cons_of_mem _ ha) hqa
    by_cases hq : q x
    · have hx := h x (List.mem_cons_self _ _) hq
      simp [hq, hx.1, hx.2, tail]
    · simp only [hq, if_false]
      by_cases hp : p x <;> simp [hp, tail]

theorem filter_updWhere_comm {p q : α → Bool} {f : α → α} {l : List α}
    (h : ∀ a, p (if q a then f a else a) = p a) :
    (updWhere q f l).filter p = updWhere q f (l.filter p) := by
  induction l with
  | nil => rfl
  | cons x xs ih =>
    rw [updWhere_cons, List.filter_cons, List.filter_cons]
    by_cases hp : p x
    · simp [h x, hp, updWhere_cons, ih]
    · simp [h x, hp, ih]

theorem filter_length_pos_iff {p : α → Bool} {l : List α} :
    0 < (l.filter p).length ↔ ∃ a ∈ l, p a = true := by
  induction l with
  | nil => simp
  | cons x xs ih =>
    rw [List.filter_cons]
    by_cases hx : p x
    · simp [hx]
    · simp [hx, ih]

/-! ## C7: provider status mapping -/

/-- C7: `MapProviderStatus` is total on strings: `approved` maps to
`approved`, `cancelled` and `rejected` map to `cancelled`, `refunded`
maps to `refunded`, and every other string maps to `pending`; the
result is always one of the four internal statuses. -/
theorem c7_mapStatus_total (s : String) :
    mapMercadoPagoStatus s =
      (if s = "approved" then "approved"
       else if s = "cancelled" ∨ s = "rejected" then "cancelled"
       else if s = "refunded" then "refunded"
       else "pending") ∧
    (mapMercadoPagoStatus s = "approved" ∨ mapMercadoPagoStatus s = "cancelled" ∨
     mapMercadoPagoStatus s = "refunded" ∨ mapMercadoPagoStatus s = "pending") := by
  unfold mapMercadoPagoStatus
  refine ⟨?_, ?_⟩ <;> split <;> simp_all

/-! ## C1: duplicate-booking guard -/

/-- C1 counterexample: a user who already holds a non-cancelled
(`'waitlist'`) reservation for class 1 is not rejected with Conflict;
the create succeeds and a second non-cancelled reservation row for the
same (user, class) pair is inserted. -/
theorem c1_waitlist_rebooking_counterexample :
    let c : ClassSession := { id := 1, capacity := 1, isActive := true }
    let b0 : Booking := { id := 1, userId := 1, classId := 1, status := "waitlist",
                          notes := none, bookedAt := 0, cancelledAt := none,
                          updatedAt := 0 }
    let s : BookingState := { classes := [c], bookings := [b0], nextId := 2 }
    (createBooking s 1 1 none 5).2 ≠ CreateResult.conflict ∧
    ((createBooking s 1 1 none 5).1.bookings.filter fun b =>
        b.userId == 1 && b.classId == 1 && b.status != "cancelled").length = 2 := by
  decide

/-- C1 amended: for an existing active class, `CreateReservation` fails
with Conflict exactly when the caller already holds a `Confirmed`
reservation for the class; a `Waitlisted` (or any other non-confirmed)
reservation does not block a new booking, so only at most one
*Confirmed* reservation per (user, class) pair is enforced. -/
theorem c1_conflict_iff_confirmed (s : BookingState) (userId classId : Nat)
    (notes : Option String) (now : Nat) (c : ClassSession)
    (hc : (s.classes.filter fun x => x.id == classId).head? = some c)
    (hact : c.isActive = true) :
    (createBooking s userId classId notes now).2 = CreateResult.conflict ↔
      ∃ b ∈ s.bookings, b.userId = userId ∧ b.classId = classId ∧
        b.status = "confirmed" := by
  unfold createBooking
  rw [hc]
  simp only [hact, Bool.not_true, Bool.false_eq_true, if_false]
  by_cases hex : 0 < (s.bookings.filter fun b =>
      b.userId == userId && b.classId == classId && b.status == "confirmed").length
  · simp only [gt_iff_lt, hex, if_true]
    have := filter_length_pos_iff.mp hex
    simp only [Bool.and_eq_true, beq_iff_eq] at this
    constructor
    · intro _
      obtain ⟨b, hb, h1, h2⟩ := this
      exact ⟨b, hb, h1.1, h1.2, h2⟩
    · intro _; trivial
  · simp only [gt_iff_lt, hex, if_false]
    constructor
    · intro h; exact absurd h (by simp)
    · intro ⟨b, hb, h1, h2, h3⟩
      exact absurd (filter_length_pos_iff.mpr ⟨b, hb, by simp [h1, h2, h3]⟩) hex

/-- C1 amended, witness: with a confirmed booking already stored the
create is rejected with Conflict. -/
theorem c1_conflict_iff_confirmed_witness :
    (createBooking
      { classes := [{ id := 1, capacity := 2, isActive := true }],
        bookings := [{ id := 1, userId := 1, classId := 1, status := "confirmed",
                       notes := none, bookedAt := 0, cancelledAt := none,
                       updatedAt := 0 }],
        nextId := 2 } 1 1 none 5).2 = CreateResult.conflict :=
  (c1_conflict_iff_confirmed _ 1 1 none 5 { id := 1, capacity := 2, isActive := true }
      (by decide) rfl).mpr
    ⟨{ id := 1, userId := 1, classId := 1, status := "confirmed", notes := none,
       bookedAt := 0, cancelledAt := none, updatedAt := 0 },
     by decide, rfl, rfl, rfl⟩

theorem filter_eq_nil_of {p : α → Bool} {l : List α} (h : ∀ a ∈ l, p a = false) :
    l.filter p = [] := by
  induction l with
  | nil => rfl
  | cons x xs ih =>
    rw [List.filter_cons, if_neg (by simp [h x (List.mem_cons_self _ _)])]
    exact ih fun a ha => h a (List.mem_cons_of_mem _ ha)

/-! ## C9: cancellation frame property -/

/-- C9: cancelling a Waitlisted reservation — or a Confirmed one when
the class has no Waitlisted reservation — rewrites exactly the rows
with the cancelled booking's id to `'cancelled'` and leaves every other
reservation untouched; no promotion happens. -/
theorem c9_cancel_frame (s : BookingState) (bookingId userId now : Nat) (b : Booking)
    (hb : (s.bookings.filter fun x => x.id == bookingId && x.userId == userId).head? =
      some b)
    (hcase : b.status = "waitlist" ∨
      (b.status = "confirmed" ∧
        ∀ x ∈ s.bookings, x.classId = b.classId → x.status ≠ "waitlist")) :
    (cancelBooking s bookingId userId now).2 = CancelResult.ok ∧
    (cancelBooking s bookingId userId now).1.classes = s.classes ∧
    (cancelBooking s bookingId userId now).1.bookings =
      updWhere (fun x => x.id == bookingId)
        (fun x => { x with status := "cancelled", cancelledAt := some now,
                           updatedAt := now }) s.bookings ∧
    ∀ x ∈ s.bookings, (x.id == bookingId) = false →
      x ∈ (cancelBooking s bookingId userId now).1.bookings := by
  have hframe : ∀ x ∈ s.bookings, (x.id == bookingId) = false →
      x ∈ updWhere (fun x => x.id == bookingId)
        (fun x => { x with status := "cancelled", cancelledAt := some now,
                           updatedAt := now }) s.bookings := by
    intro x hx hid
    exact List.mem_map.mpr ⟨x, hx, by simp [hid]⟩
  simp only [cancelBooking, hb]
  rcases hcase with hstat | ⟨hstat, hnone⟩
  · rw [hstat]
    simp only [show (("waitlist" == "cancelled") = true) = False by simp,
      show (("waitlist" == "confirmed") = true) = False by simp, if_false]
    exact ⟨trivial, trivial, trivial, hframe⟩
  · rw [hstat]
    simp only [show (("confirmed" == "cancelled") = true) = False by simp,
      show (("confirmed" == "confirmed") = true) = True by simp, if_false, if_true]
    have hnil : (updWhere (fun x => x.id == bookingId)
        (fun x => { x with status := "cancelled", cancelledAt := some now,
                           updatedAt := now }) s.bookings).filter
          (fun x => x.classId == b.classId && x.status == "waitlist") = [] := by
      apply filter_eq_nil_of
      intro y hy
      rcases List.mem_map.mp hy with ⟨a, ha, rfl⟩
      by_cases hq : (a.id == bookingId) = true
      · simp [hq]
      · have := hnone a ha
        simp only [hq, if_false]
        by_cases hcls : a.classId = b.classId
        · simp [this hcls]
        · simp [hcls]
    rw [hnil]
    exact ⟨rfl, rfl, rfl, hframe⟩

/-- C9 witness: a concrete waitlisted booking is cancelled with result
200. -/
theorem c9_cancel_frame_witness :
    (cancelBooking
      { classes := [{ id := 1, capacity := 2, isActive := true }],
        bookings := [{ id := 1, userId := 1, classId := 1, status := "waitlist",
                       notes := none, bookedAt := 0, cancelledAt := none,
                       updatedAt := 0 }],
        nextId := 2 } 1 1 5).2 = CancelResult.ok :=
  (c9_cancel_frame _ 1 1 5
    { id := 1, userId := 1, classId := 1, status := "waitlist", notes := none,
      bookedAt := 0, cancelledAt := none, updatedAt := 0 }
    (by decide) (Or.inl rfl)).1

/-! ## C2: first-in-first-out waitlist promotion -/

/-- C2: cancelling a Confirmed reservation when the class has a
Waitlisted one promotes exactly the Waitlisted reservation with the
smallest `bookedAt`.  Row ids are assumed distinct (primary key) and
the table is in booking order (`bookedAt` strictly increasing along the
list), which is what sequential inserts with the `unixepoch()` default
produce; the promoted row is the head of the unordered `limit(1)` scan
and under these hypotheses that is the earliest-booked one. -/
theorem c2_promote_earliest (s : BookingState) (bookingId userId now : Nat) (b : Booking)
    (hids : (s.bookings.map Booking.id).Nodup)
    (hsort : s.bookings.Pairwise fun x y => x.bookedAt < y.bookedAt)
    (hb : (s.bookings.filter fun x => x.id == bookingId && x.userId == userId).head? =
      some b)
    (hconf : b.status = "confirmed")
    (hwait : ∃ x ∈ s.bookings, x.classId = b.classId ∧ x.status = "waitlist") :
    ∃ w ∈ s.bookings, w.status = "waitlist" ∧ w.classId = b.classId ∧
      (∀ x ∈ s.bookings, x.status = "waitlist" → x.classId = b.classId →
        w.bookedAt ≤ x.bookedAt) ∧
      (cancelBooking s bookingId userId now).2 = CancelResult.ok ∧
      (cancelBooking s bookingId userId now).1.bookings =
        s.bookings.map fun x =>
          if x.id == bookingId then
            { x with status := "cancelled", cancelledAt := some now, updatedAt := now }
          else if x.id == w.id then { x with status := "confirmed", updatedAt := now }
          else x := by
  have hinj := List.inj_on_of_nodup_map hids
  have hbm := head?_filter_mem hb
  have hbid : b.id = bookingId := by
    have := hbm.2; simp only [Bool.and_eq_true, beq_iff_eq] at this; exact this.1
  -- the waitlist scan over the cancelled table equals the scan over the
  -- original table: the only rewritten row is the confirmed booking b
  have hfilter : (updWhere (fun x => x.id == bookingId)
      (fun x => { x with status := "cancelled", cancelledAt := some now,
                         updatedAt := now }) s.bookings).filter
        (fun x => x.classId == b.classId && x.status == "waitlist") =
      s.bookings.filter (fun x => x.classId == b.classId && x.status == "waitlist") := by
    apply filter_updWhere_eq
    intro a ha hq
    have haid : a.id = bookingId := by simpa using hq
    have hab : a = b := hinj ha hbm.1 (haid.trans hbid.symm)
    subst hab
    constructor
    · simp [hconf]
    · simp
  -- the scan returns some head w
  have hne : s.bookings.filter
      (fun x => x.classId == b.classId && x.status == "waitlist") ≠ [] := by
    obtain ⟨x, hx, hcls, hst⟩ := hwait
    intro hnil
    have : 0 < (s.bookings.filter
        (fun x => x.classId == b.classId && x.status == "waitlist")).length :=
      filter_length_pos_iff.mpr ⟨x, hx, by simp [hcls, hst]⟩
    rw [hnil] at this; simp at this
  obtain ⟨w, t, hfw⟩ : ∃ w t, s.bookings.filter
      (fun x => x.classId == b.classId && x.status == "waitlist") = w :: t := by
    cases hcase : s.bookings.filter
        (fun x => x.classId == b.classId && x.status == "waitlist") with
    | nil => exact absurd hcase hne
    | cons w t => exact ⟨w, t, rfl⟩
  have hw : (s.bookings.filter
      (fun x => x.classId == b.classId && x.status == "waitlist")).head? = some w := by
    rw [hfw]; rfl
  have hwm := head?_filter_mem hw
  have hwst : w.status = "waitlist" := by
    have := hwm.2; simp only [Bool.and_eq_true, beq_iff_eq] at this; exact this.2
  have hwcls : w.classId = b.classId := by
    have := hwm.2; simp only [Bool.and_eq_true, beq_iff_eq] at this; exact this.1
  have hwb : w.id ≠ b.id := by
    intro h
    have : w = b := hinj hwm.1 hbm.1 h
    rw [this, hconf] at hwst; exact absurd hwst (by simp)
  have hmin : ∀ x ∈ s.bookings, x.status = "waitlist" → x.classId = b.classId →
      w.bookedAt ≤ x.bookedAt := by
    intro x hx hst hcls
    rcases head?_filter_min (fun x y => x.bookedAt < y.bookedAt) hsort hw x hx
        (by simp [hst, hcls]) with rfl | hlt
    · exact le_refl _
    · exact le_of_lt hlt
  refine ⟨w, hwm.1, hwst, hwcls, hmin, ?_, ?_⟩
  · simp only [cancelBooking, hb, hconf]
    simp only [show (("confirmed" == "cancelled") = true) = False by simp,
      show (("confirmed" == "confirmed") = true) = True by simp, if_false, if_true]
    rw [hfilter, hw]
  · simp only [cancelBooking, hb, hconf]
    simp only [show (("confirmed" == "cancelled") = true) = False by simp,
      show (("confirmed" == "confirmed") = true) = True by simp, if_false, if_true]
    rw [hfilter, hw]
    show updWhere (fun x => x.id == w.id)
        (fun x => { x with status := "confirmed", updatedAt := now })
        (updWhere (fun x => x.id == bookingId)
          (fun x => { x with status := "cancelled", cancelledAt := some now,
                             updatedAt := now }) s.bookings) = _
    unfold updWhere
    rw [List.map_map]
    apply List.map_congr_left
    intro a ha
    by_cases haid : (a.id == bookingId) = true
    · have hab : a = b :=
        hinj ha hbm.1 ((by simpa using haid : a.id = bookingId).trans hbid.symm)
      have h2 : (a.id == w.id) = false := by
        rw [hab]; exact beq_eq_false_iff_ne.mpr fun h => hwb h.symm
      simp [Function.comp, haid, h2]
    · by_cases hwid : (a.id == w.id) = true
      · simp [Function.comp, haid, hwid]
      · simp [Function.comp, haid, hwid]

/-- C2 witness: class of capacity 2 with bookings A confirmed, B
confirmed, C waitlisted; cancelling A succeeds (and by the theorem the
earliest-booked waitlisted reservation is the promoted one). -/
theorem c2_promote_earliest_witness :
    (cancelBooking
      { classes := [{ id := 1, capacity := 2, isActive := true }],
        bookings :=
          [{ id := 1, userId := 1, classId := 1, status := "confirmed", notes := none,
             bookedAt := 0, cancelledAt := none, updatedAt := 0 },
           { id := 2, userId := 2, classId := 1, status := "confirmed", notes := none,
             bookedAt := 1, cancelledAt := none, updatedAt := 1 },
           { id := 3, userId := 3, classId := 1, status := "waitlist", notes := none,
             bookedAt := 2, cancelledAt := none, updatedAt := 2 }],
        nextId := 4 } 1 1 9).2 = CancelResult.ok := by
  obtain ⟨w, _, _, _, _, hok, _⟩ :=
    c2_promote_earliest
      { classes := [{ id := 1, capacity := 2, isActive := true }],
        bookings :=
          [{ id := 1, userId := 1, classId := 1, status := "confirmed", notes := none,
             bookedAt := 0, cancelledAt := none, updatedAt := 0 },
           { id := 2, userId := 2, classId := 1, status := "confirmed", notes := none,
             bookedAt := 1, cancelledAt := none, updatedAt := 1 },
           { id := 3, userId := 3, classId := 1, status := "waitlist", notes := none,
             bookedAt := 2, cancelledAt := none, updatedAt := 2 }],
        nextId := 4 } 1 1 9
      { id := 1, userId := 1, classId := 1, status := "confirmed", notes := none,
        bookedAt := 0, cancelledAt := none, updatedAt := 0 }
      (by decide) (by decide) (by decide) rfl
      ⟨{ id := 3, userId := 3, classId := 1, status := "waitlist", notes := none,
         bookedAt := 2, cancelledAt := none, updatedAt := 2 }, by decide, rfl, rfl⟩
  exact hok

/-! ## C3: capacity admission control -/

theorem createBooking_eq (s : BookingState) (userId classId : Nat)
    (notes : Option String) (now : Nat) (c : ClassSession)
    (hc : (s.classes.filter fun x => x.id == classId).head? = some c)
    (hact : c.isActive = true)
    (hnoconf : (s.bookings.filter fun b =>
      b.userId == userId && b.classId == classId && b.status == "confirmed") = []) :
    createBooking s userId classId notes now =
      ({ s with
          bookings := s.bookings ++
            [{ id := s.nextId, userId := userId, classId := classId,
               status := if countConfirmed s classId ≥ c.capacity then "waitlist"
                         else "confirmed",
               notes := notes, bookedAt := now, cancelledAt := none,
               updatedAt := now }],
          nextId := s.nextId + 1 },
       CreateResult.created (if countConfirmed s classId ≥ c.capacity then "waitlist"
                             else "confirmed")) := by
  simp only [createBooking, hc, hact, Bool.not_true, Bool.false_eq_true, if_false,
    hnoconf, List.length_nil, gt_iff_lt, lt_irrefl]

theorem createMany_spec (users : List Nat) :
    ∀ (s : BookingState) (classId now : Nat) (c : ClassSession),
      (s.classes.filter fun x => x.id == classId).head? = some c →
      c.isActive = true →
      users.Nodup →
      (∀ u ∈ users, ∀ b ∈ s.bookings, ¬(b.userId = u ∧ b.classId = classId)) →
      countConfirmed s classId ≤ c.capacity →
      (createMany s classId users now).2 =
        (List.range users.length).map (fun i =>
          CreateResult.created (if countConfirmed s classId + i < c.capacity
            then "confirmed" else "waitlist")) ∧
      countConfirmed (createMany s classId users now).1 classId =
        min c.capacity (countConfirmed s classId + users.length) ∧
      countWaitlist (createMany s classId users now).1 classId =
        countWaitlist s classId + (users.length -
          (min c.capacity (countConfirmed s classId + users.length) -
            countConfirmed s classId)) := by
  induction users with
  | nil =>
    intro s classId now c hc hact hnd hfree hle
    refine ⟨by simp [createMany], ?_, ?_⟩
    · show countConfirmed s classId = _
      simp only [List.length_nil]
      omega
    · show countWaitlist s classId = _
      simp only [List.length_nil]
      omega
  | cons u rest ih =>
    intro s classId now c hc hact hnd hfree hle
    have hnoconf : (s.bookings.filter fun b =>
        b.userId == u && b.classId == classId && b.status == "confirmed") = [] := by
      apply filter_eq_nil_of
      intro b hb
      have hforb := hfree u (List.mem_cons_self _ _) b hb
      by_cases h1 : b.userId = u
      · by_cases h2 : b.classId = classId
        · exact absurd ⟨h1, h2⟩ hforb
        · simp [h2]
      · simp [h1]
    have heq := createBooking_eq s u classId none now c hc hact hnoconf
    have hfst : (createMany s classId (u :: rest) now).1 =
        (createMany (createBooking s u classId none now).1 classId rest now).1 := rfl
    have hsnd : (createMany s classId (u :: rest) now).2 =
        (createBooking s u classId none now).2 ::
          (createMany (createBooking s u classId none now).1 classId rest now).2 := rfl
    by_cases hcap : c.capacity ≤ countConfirmed s classId
    · rw [if_pos (show countConfirmed s classId ≥ c.capacity from hcap)] at heq
      have hcC : countConfirmed (createBooking s u classId none now).1 classId =
          countConfirmed s classId := by
        rw [heq]; simp [countConfirmed, List.filter_append]
      have hcW : countWaitlist (createBooking s u classId none now).1 classId =
          countWaitlist s classId + 1 := by
        rw [heq]; simp [countWaitlist, List.filter_append]
      have hc2 : ((createBooking s u classId none now).1.classes.filter
          fun x => x.id == classId).head? = some c := by
        rw [heq]; exact hc
      have hfree2 : ∀ v ∈ rest, ∀ b2 ∈ (createBooking s u classId none now).1.bookings,
          ¬(b2.userId = v ∧ b2.classId = classId) := by
        intro v hv b2 hb2
        rw [heq] at hb2
        simp only [List.mem_append, List.mem_singleton] at hb2
        rcases hb2 with hb2 | rfl
        · exact hfree v (List.mem_cons_of_mem _ hv) b2 hb2
        · intro hpair
          exact (List.nodup_cons.mp hnd).1
            (by rw [show u = v from hpair.1]; exact hv)
      have hle2 : countConfirmed (createBooking s u classId none now).1 classId ≤
          c.capacity := by rw [hcC]; exact hle
      obtain ⟨ihres, ihconf, ihwait⟩ :=
        ih (createBooking s u classId none now).1 classId now c hc2 hact
          (List.Nodup.of_cons hnd) hfree2 hle2
      rw [hcC] at ihres ihconf ihwait
      rw [hcW] at ihwait
      refine ⟨?_, ?_, ?_⟩
      · rw [hsnd, ihres, show (createBooking s u classId none now).2 =
          CreateResult.created "waitlist" by rw [heq]]
        simp only [List.length_cons, List.range_succ_eq_map, List.map_cons, List.map_map]
        rw [if_neg (by omega : ¬ (countConfirmed s classId + 0 < c.capacity))]
        refine congrArg _ (List.map_congr_left fun i _ => ?_)
        simp only [Function.comp]
        rw [if_neg (by omega), if_neg (by omega)]
      · rw [hfst, ihconf]
        simp only [List.length_cons]
        omega
      · rw [hfst, ihwait]
        simp only [List.length_cons]
        omega
    · rw [if_neg (show ¬ countConfirmed s classId ≥ c.capacity from hcap)] at heq
      have hcC : countConfirmed (createBooking s u classId none now).1 classId =
          countConfirmed s classId + 1 := by
        rw [heq]; simp [countConfirmed, List.filter_append]
      have hcW : countWaitlist (createBooking s u classId none now).1 classId =
          countWaitlist s classId := by
        rw [heq]; simp [countWaitlist, List.filter_append]
      have hc2 : ((createBooking s u classId none now).1.classes.filter
          fun x => x.id == classId).head? = some c := by
        rw [heq]; exact hc
      have hfree2 : ∀ v ∈ rest, ∀ b2 ∈ (createBooking s u classId none now).1.bookings,
          ¬(b2.userId = v ∧ b2.classId = classId) := by
        intro v hv b2 hb2
        rw [heq] at hb2
        simp only [List.mem_append, List.mem_singleton] at hb2
        rcases hb2 with hb2 | rfl
        · exact hfree v (List.mem_cons_of_mem _ hv) b2 hb2
        · intro hpair
          exact (List.nodup_cons.mp hnd).1
            (by rw [show u = v from hpair.1]; exact hv)
      have hle2 : countConfirmed (createBooking s u classId none now).1 classId ≤
          c.capacity := by rw [hcC]; omega
      obtain ⟨ihres, ihconf, ihwait⟩ :=
        ih (createBooking s u classId none now).1 classId now c hc2 hact
          (List.Nodup.of_cons hnd) hfree2 hle2
      rw [hcC] at ihres ihconf ihwait
      rw [hcW] at ihwait
      refine ⟨?_, ?_, ?_⟩
      · rw [hsnd, ihres, show (createBooking s u classId none now).2 =
          CreateResult.created "confirmed" by rw [heq]]
        simp only [List.length_cons, List.range_succ_eq_map, List.map_cons, List.map_map]
        rw [if_pos (by omega : countConfirmed s classId + 0 < c.capacity)]
        refine congrArg _ (List.map_congr_left fun i _ => ?_)
        simp only [Function.comp]
        refine congrArg _ (if_congr (by omega) rfl rfl)
      · rw [hfst, ihconf]
        simp only [List.length_cons]
        omega
      · rw [hfst, ihwait]
        simp only [List.length_cons]
        omega

/-- Fresh initial state for the sequential-fill scenario: one active
class of the given capacity and an empty bookings table. -/
def freshClassState (cid cap : Nat) : BookingState :=
  { classes := [{ id := cid, capacity := cap, isActive := true }],
    bookings := [], nextId := 1 }

/-- C3: under sequential execution a new reservation is Confirmed
exactly when the current Confirmed count is strictly below the class
capacity (Waitlisted otherwise), and consequently N sequential creates
by distinct users against a fresh class of capacity C (with C < N, no
cancellations) yield Confirmed for the first C requests and Waitlisted
for the remaining N − C, in request order, with final Confirmed count C
and Waitlisted count N − C. -/
theorem c3_capacity_admission :
    (∀ (s : BookingState) (userId classId : Nat) (notes : Option String) (now : Nat)
        (c : ClassSession),
      (s.classes.filter fun x => x.id == classId).head? = some c →
      c.isActive = true →
      (s.bookings.filter fun b =>
        b.userId == userId && b.classId == classId && b.status == "confirmed") = [] →
      ((createBooking s userId classId notes now).2 = CreateResult.created "confirmed" ↔
        countConfirmed s classId < c.capacity)) ∧
    (∀ (cid cap now : Nat) (users : List Nat),
      users.Nodup → cap < users.length →
      (createMany (freshClassState cid cap) cid users now).2 =
        (List.range users.length).map (fun i =>
          CreateResult.created (if i < cap then "confirmed" else "waitlist")) ∧
      countConfirmed (createMany (freshClassState cid cap) cid users now).1 cid = cap ∧
      countWaitlist (createMany (freshClassState cid cap) cid users now).1 cid =
        users.length - cap) := by
  constructor
  · intro s userId classId notes now c hc hact hnoconf
    rw [createBooking_eq s userId classId notes now c hc hact hnoconf]
    by_cases hcap : countConfirmed s classId ≥ c.capacity
    · rw [if_pos hcap]
      constructor
      · intro h; exact absurd h (by simp)
      · intro h; omega
    · rw [if_neg hcap]
      exact ⟨fun _ => by omega, fun _ => rfl⟩
  · intro cid cap now users hnd hlen
    have hc : ((freshClassState cid cap).classes.filter
          fun x => x.id == cid).head? =
        some { id := cid, capacity := cap, isActive := true } := by
      simp [freshClassState, List.filter_cons]
    have h0 : countConfirmed (freshClassState cid cap) cid = 0 := rfl
    have h0w : countWaitlist (freshClassState cid cap) cid = 0 := rfl
    obtain ⟨hres, hconf, hwait⟩ :=
      createMany_spec users (freshClassState cid cap) cid now
        { id := cid, capacity := cap, isActive := true } hc rfl hnd
        (by intro u hu b hb; simp [freshClassState] at hb)
        (by rw [h0]; exact Nat.zero_le _)
    rw [h0] at hres hconf hwait
    rw [h0w] at hwait
    refine ⟨?_, ?_, ?_⟩
    · rw [hres]
      exact List.map_congr_left fun i _ => by rw [Nat.zero_add]
    · rw [hconf]
      show min cap (0 + users.length) = cap
      omega
    · rw [hwait]
      show 0 + (users.length - (min cap (0 + users.length) - 0)) = users.length - cap
      omega

/-- C3 witness: a fresh class of capacity 1 and two distinct users; the
single-step characterization gives Confirmed for the first user, and
the sequential run returns Confirmed then Waitlisted with final counts
1 and 1. -/
theorem c3_capacity_admission_witness :
    (createBooking (freshClassState 1 1) 1 1 none 0).2 =
      CreateResult.created "confirmed" ∧
    (createMany (freshClassState 1 1) 1 [1, 2] 0).2 =
      [CreateResult.created "confirmed", CreateResult.created "waitlist"] := by
  constructor
  · exact (c3_capacity_admission.1 (freshClassState 1 1) 1 1 none 0
      { id := 1, capacity := 1, isActive := true } (by decide) rfl (by decide)).mpr
      (by decide)
  · rw [(c3_capacity_admission.2 1 1 0 [1, 2] (by decide) (by decide)).1]
    decide

/-! ## C4: webhook idempotence -/

theorem head?_filter_updWhere {p q : α → Bool} {f : α → α} {l : List α} {a : α}
    (hpf : ∀ x, p (if q x then f x else x) = p x)
    (h : (l.filter p).head? = some a) :
    ((updWhere q f l).filter p).head? = some (if q a then f a else a) := by
  rw [filter_updWhere_comm hpf]
  unfold updWhere
  rw [List.head?_map, h]
  rfl

/-- C4: delivering the same webhook payload a second time is a no-op:
if the first `processPaymentWebhook` run completes (no throw) and
produces state `s1`, running it again on `s1` returns `s1` unchanged
with no update and no approval side effect, because the stored status
now equals the mapped status and the idempotency gate takes the
"unchanged" branch. -/
theorem c4_webhook_idempotent (gw : Gateway) (paymentId action : String)
    (now now2 : Nat) (s s1 : PayState) (evs : List PEvent)
    (h : processPaymentWebhook gw false paymentId action now s = .ok (s1, evs)) :
    processPaymentWebhook gw false paymentId action now2 s1 = .ok (s1, []) := by
  unfold processPaymentWebhook at h ⊢
  cases hgw : gw paymentId with
  | throws => rw [hgw] at h; exact Except.noConfusion h
  | missing => rfl
  | found mp =>
    rw [hgw] at h
    dsimp only at h ⊢
    cases href : mp.externalReference with
    | none => rfl
    | some ref =>
      rw [href] at h
      dsimp only at h ⊢
      cases hsp : (s.subscriptionPayments.filter fun sp => sp.id == ref).head? with
      | some sp =>
        rw [hsp] at h
        dsimp only at h
        simp only [Except.ok.injEq] at h
        rw [processSubscriptionPaymentWebhook] at h
        by_cases hst : (sp.status != mapMercadoPagoStatus mp.status) = true
        · rw [if_pos hst] at h
          have hhead : ((updWhere (fun q => q.id == sp.id)
              (fun q =>
                { q with status := mapMercadoPagoStatus mp.status,
                         mercadopagoId := some (toString mp.id),
                         paidAt := mp.dateApproved, updatedAt := now,
                         metadata := mergeMeta sp.metadata
                           (webhookMeta mp action now) })
              s.subscriptionPayments).filter fun x => x.id == ref).head? =
              some { sp with status := mapMercadoPagoStatus mp.status,
                             mercadopagoId := some (toString mp.id),
                             paidAt := mp.dateApproved, updatedAt := now,
                             metadata := mergeMeta sp.metadata
                               (webhookMeta mp action now) } := by
            have hcomm := head?_filter_updWhere
              (p := fun x : SubscriptionPayment => x.id == ref)
              (q := fun q : SubscriptionPayment => q.id == sp.id)
              (f := fun q : SubscriptionPayment =>
                { q with status := mapMercadoPagoStatus mp.status,
                         mercadopagoId := some (toString mp.id),
                         paidAt := mp.dateApproved, updatedAt := now,
                         metadata := mergeMeta sp.metadata
                           (webhookMeta mp action now) })
              (by intro x; by_cases hx : (x.id == sp.id) = true <;> simp [hx]) hsp
            rw [hcomm, if_pos (by simp)]
          by_cases happr : (mapMercadoPagoStatus mp.status == "approved" &&
              sp.status != "approved") = true
          · rw [if_pos happr] at h
            simp only [Prod.mk.injEq] at h
            have hsub1 : s1.subscriptionPayments =
                updWhere (fun q => q.id == sp.id)
                  (fun q =>
                    { q with status := mapMercadoPagoStatus mp.status,
                             mercadopagoId := some (toString mp.id),
                             paidAt := mp.dateApproved, updatedAt := now,
                             metadata := mergeMeta sp.metadata
                               (webhookMeta mp action now) })
                  s.subscriptionPayments := by
              rw [← h.1]; simp [handleSubscriptionPaymentApproved]
            rw [hsub1, hhead]
            dsimp only
            rw [processSubscriptionPaymentWebhook]
            rw [if_neg (by simp)]
          · rw [if_neg happr] at h
            simp only [Prod.mk.injEq] at h
            have hsub1 : s1.subscriptionPayments =
                updWhere (fun q => q.id == sp.id)
                  (fun q =>
                    { q with status := mapMercadoPagoStatus mp.status,
                             mercadopagoId := some (toString mp.id),
                             paidAt := mp.dateApproved, updatedAt := now,
                             metadata := mergeMeta sp.metadata
                               (webhookMeta mp action now) })
                  s.subscriptionPayments := by
              rw [← h.1]
            rw [hsub1, hhead]
            dsimp only
            rw [processSubscriptionPaymentWebhook]
            rw [if_neg (by simp)]
        · rw [if_neg hst] at h
          simp only [Prod.mk.injEq] at h
          rw [← h.1, hsp]
          dsimp only
          rw [processSubscriptionPaymentWebhook, if_neg hst]
      | none =>
        rw [hsp] at h
        dsimp only at h
        cases hp : (s.payments.filter fun p => p.id == ref).head? with
        | none =>
          rw [hp] at h
          dsimp only at h
          simp only [Except.ok.injEq, Prod.mk.injEq] at h
          rw [← h.1, hsp, hp]
        | some currentPayment =>
          rw [hp] at h
          dsimp only at h
          by_cases hst : (currentPayment.status != mapMercadoPagoStatus mp.status) = true
          · rw [if_pos hst] at h
            have hhead : ((updWhere (fun q => q.id == ref)
                (fun q =>
                  { q with status := mapMercadoPagoStatus mp.status,
                           mercadopagoId := some paymentId,
                           paymentDate := mp.dateApproved, updatedAt := now,
                           metadata := mergeMeta currentPayment.metadata
                             (webhookMeta mp action now) })
                s.payments).filter fun p => p.id == ref).head? =
                some { currentPayment with
                         status := mapMercadoPagoStatus mp.status,
                         mercadopagoId := some paymentId,
                         paymentDate := mp.dateApproved, updatedAt := now,
                         metadata := mergeMeta currentPayment.metadata
                           (webhookMeta mp action now) } := by
              have hcomm := head?_filter_updWhere
                (p := fun x : Payment => x.id == ref)
                (q := fun q : Payment => q.id == ref)
                (f := fun q : Payment =>
                  { q with status := mapMercadoPagoStatus mp.status,
                           mercadopagoId := some paymentId,
                           paymentDate := mp.dateApproved, updatedAt := now,
                           metadata := mergeMeta currentPayment.metadata
                             (webhookMeta mp action now) })
                (by intro x; by_cases hx : (x.id == ref) = true <;> simp [hx]) hp
              rw [hcomm, if_pos (head?_filter_mem hp).2]
            have hendgoal : s1.subscriptionPayments = s.subscriptionPayments ∧
                s1.payments = updWhere (fun q => q.id == ref)
                  (fun q =>
                    { q with status := mapMercadoPagoStatus mp.status,
                             mercadopagoId := some paymentId,
                             paymentDate := mp.dateApproved, updatedAt := now,
                             metadata := mergeMeta currentPayment.metadata
                               (webhookMeta mp action now) })
                  s.payments := by
              by_cases happr : (mapMercadoPagoStatus mp.status == "approved" &&
                  currentPayment.status != "approved") = true
              · rw [if_pos happr] at h
                simp only [Except.ok.injEq, Prod.mk.injEq] at h
                exact ⟨by rw [← h.1], by rw [← h.1]⟩
              · rw [if_neg happr] at h
                simp only [Except.ok.injEq, Prod.mk.injEq] at h
                exact ⟨by rw [← h.1], by rw [← h.1]⟩
            rw [hendgoal.1, hsp, hendgoal.2, hhead]
            dsimp only
            rw [if_neg (by simp)]
          · rw [if_neg hst] at h
            simp only [Except.ok.injEq, Prod.mk.injEq] at h
            rw [← h.1, hsp, hp]
            dsimp only
            rw [if_neg hst]

/-- C4 witness: a concrete approved-payment webhook; after the first
delivery updates payment 1 to approved, the identical second delivery
returns the state unchanged with no events. -/
theorem c4_webhook_idempotent_witness :
    processPaymentWebhook
      (fun _ => GatewayResult.found
        { id := 55, status := "approved", externalReference := some 1,
          dateApproved := some 100, statusDetail := "ok",
          paymentMethodId := "visa", paymentTypeId := "credit_card" })
      false "55" "payment.updated" 7
      { payments := [{ id := 1, status := "approved", mercadopagoId := some "55",
                       paymentDate := some 100,
                       metadata := [("mercadopago_status", "approved"),
                                    ("mercadopago_status_detail", "ok"),
                                    ("payment_method_id", "visa"),
                                    ("payment_type_id", "credit_card"),
                                    ("last_webhook_action", "payment.updated"),
                                    ("last_webhook_date", "5")],
                       updatedAt := 5 }],
        subscriptionPayments := [], subscriptions := [] } =
      .ok ({ payments := [{ id := 1, status := "approved", mercadopagoId := some "55",
                            paymentDate := some 100,
                            metadata := [("mercadopago_status", "approved"),
                                         ("mercadopago_status_detail", "ok"),
                                         ("payment_method_id", "visa"),
                                         ("payment_type_id", "credit_card"),
                                         ("last_webhook_action", "payment.updated"),
                                         ("last_webhook_date", "5")],
                            updatedAt := 5 }],
             subscriptionPayments := [], subscriptions := [] }, []) :=
  c4_webhook_idempotent
    (fun _ => GatewayResult.found
      { id := 55, status := "approved", externalReference := some 1,
        dateApproved := some 100, statusDetail := "ok",
        paymentMethodId := "visa", paymentTypeId := "credit_card" })
    "55" "payment.updated" 5 7
    { payments := [{ id := 1, status := "pending", mercadopagoId := none,
                     paymentDate := none, metadata := [], updatedAt := 0 }],
      subscriptionPayments := [], subscriptions := [] }
    { payments := [{ id := 1, status := "approved", mercadopagoId := some "55",
                     paymentDate := some 100,
                     metadata := [("mercadopago_status", "approved"),
                                  ("mercadopago_status_detail", "ok"),
                                  ("payment_method_id", "visa"),
                                  ("payment_type_id", "credit_card"),
                                  ("last_webhook_action", "payment.updated"),
                                  ("last_webhook_date", "5")],
                     updatedAt := 5 }],
      subscriptionPayments := [], subscriptions := [] }
    [PEvent.paymentUpdated 1 "approved", PEvent.paymentApprovedHook 1]
    rfl

/-! ## C5: subscription activation happens exactly on the approval edge -/

/-- The condition under which one webhook delivery activates a
subscription, read off the branch structure of `processPaymentWebhook`:
the gateway returns a payment with an external reference that resolves
to a SubscriptionPayment whose stored status is not yet `'approved'`
while the mapped status is `'approved'`.  Returns the linked
subscription id. -/
def approvalEdge (gw : Gateway) (paymentId : String) (s : PayState) : Option Nat :=
  match gw paymentId with
  | .found mp =>
    match mp.externalReference with
    | some ref =>
      match (s.subscriptionPayments.filter fun sp => sp.id == ref).head? with
      | some sp =>
        if mapMercadoPagoStatus mp.status == "approved" && sp.status != "approved"
        then some sp.subscriptionId else none
      | none => none
    | none => none
  | _ => none

/-- C5: a completed webhook delivery rewrites the subscriptions table to
`'active'` on the rows matching the linked subscription id exactly when
the approval edge fires (stored status not `'approved'`, mapped status
`'approved'`, on a SubscriptionPayment); in every other case — any
other mapped status, a one-off payment, an unknown reference, or no
status change — the subscriptions table is untouched.  This is the only
write to `subscriptions` in the reconciliation engine. -/
theorem c5_activation_exactly_on_edge (gw : Gateway) (paymentId action : String)
    (now : Nat) (s s1 : PayState) (evs : List PEvent)
    (h : processPaymentWebhook gw false paymentId action now s = .ok (s1, evs)) :
    s1.subscriptions =
      (match approvalEdge gw paymentId s with
       | some sid => updWhere (fun sub => sub.id == sid)
           (fun sub => { sub with status := "active", updatedAt := now })
           s.subscriptions
       | none => s.subscriptions) := by
  unfold processPaymentWebhook at h
  unfold approvalEdge
  cases hgw : gw paymentId with
  | throws => rw [hgw] at h; exact Except.noConfusion h
  | missing =>
    rw [hgw] at h
    simp only [Except.ok.injEq, Prod.mk.injEq] at h
    rw [← h.1]
  | found mp =>
    rw [hgw] at h
    dsimp only at h ⊢
    cases href : mp.externalReference with
    | none =>
      rw [href] at h
      simp only [Except.ok.injEq, Prod.mk.injEq] at h
      rw [← h.1]
    | some ref =>
      rw [href] at h
      dsimp only at h ⊢
      cases hsp : (s.subscriptionPayments.filter fun sp => sp.id == ref).head? with
      | some sp =>
        rw [hsp] at h
        dsimp only at h ⊢
        simp only [Except.ok.injEq] at h
        rw [processSubscriptionPaymentWebhook] at h
        by_cases hst : (sp.status != mapMercadoPagoStatus mp.status) = true
        · rw [if_pos hst] at h
          by_cases happr : (mapMercadoPagoStatus mp.status == "approved" &&
              sp.status != "approved") = true
          · rw [if_pos happr] at h
            rw [if_pos happr]
            simp only [Prod.mk.injEq] at h
            rw [← h.1]
            simp [handleSubscriptionPaymentApproved]
          · rw [if_neg happr] at h
            rw [if_neg happr]
            simp only [Prod.mk.injEq] at h
            rw [← h.1]
        · rw [if_neg hst] at h
          simp only [Prod.mk.injEq] at h
          have hseq : sp.status = mapMercadoPagoStatus mp.status := by
            simpa using hst
          have hcond : (mapMercadoPagoStatus mp.status == "approved" &&
              sp.status != "approved") = false := by
            rw [← hseq]
            by_cases hap : sp.status = "approved" <;> simp [hap]
          rw [if_neg (by simp [hcond]), ← h.1]
      | none =>
        rw [hsp] at h
        dsimp only at h ⊢
        cases hp : (s.payments.filter fun p => p.id == ref).head? with
        | none =>
          rw [hp] at h
          dsimp only at h
          simp only [Except.ok.injEq, Prod.mk.injEq] at h
          rw [← h.1]
        | some currentPayment =>
          rw [hp] at h
          dsimp only at h
          by_cases hst : (currentPayment.status != mapMercadoPagoStatus mp.status) = true
          · rw [if_pos hst] at h
            by_cases happr : (mapMercadoPagoStatus mp.status == "approved" &&
                currentPayment.status != "approved") = true
            · rw [if_pos happr] at h
              simp only [Except.ok.injEq, Prod.mk.injEq] at h
              rw [← h.1]
            · rw [if_neg happr] at h
              simp only [Except.ok.injEq, Prod.mk.injEq] at h
              rw [← h.1]
          · rw [if_neg hst] at h
            simp only [Except.ok.injEq, Prod.mk.injEq] at h
            rw [← h.1]

/-- C5 witness: the spec scenario — gateway reports approved with
external reference 42, SubscriptionPayment 42 (subscription 7) is
Pending, Subscription 7 is pending_payment; after delivery subscription
7 is active. -/
theorem c5_activation_exactly_on_edge_witness :
    ∃ evs,
      processPaymentWebhook
        (fun _ => GatewayResult.found
          { id := 555, status := "approved", externalReference := some 42,
            dateApproved := some 100, statusDetail := "ok",
            paymentMethodId := "visa", paymentTypeId := "credit_card" })
        false "555" "payment.updated" 9
        { payments := [], subscriptionPayments :=
            [{ id := 42, subscriptionId := 7, status := "pending",
               mercadopagoId := none, paidAt := none, metadata := [],
               updatedAt := 0 }],
          subscriptions := [{ id := 7, status := "pending_payment",
                              updatedAt := 0 }] } =
        .ok ({ payments := [], subscriptionPayments :=
                 [{ id := 42, subscriptionId := 7, status := "approved",
                    mercadopagoId := some "555", paidAt := some 100,
                    metadata := [("mercadopago_status", "approved"),
                                 ("mercadopago_status_detail", "ok"),
                                 ("payment_method_id", "visa"),
                                 ("payment_type_id", "credit_card"),
                                 ("last_webhook_action", "payment.updated"),
                                 ("last_webhook_date", "9")],
                    updatedAt := 9 }],
               subscriptions := [{ id := 7, status := "active",
                                   updatedAt := 9 }] }, evs) ∧
      ({ payments := [], subscriptionPayments :=
           [{ id := 42, subscriptionId := 7, status := "approved",
              mercadopagoId := some "555", paidAt := some 100,
              metadata := [("mercadopago_status", "approved"),
                           ("mercadopago_status_detail", "ok"),
                           ("payment_method_id", "visa"),
                           ("payment_type_id", "credit_card"),
                           ("last_webhook_action", "payment.updated"),
                           ("last_webhook_date", "9")],
              updatedAt := 9 }],
         subscriptions := [{ id := 7, status := "active",
                             updatedAt := 9 }] } : PayState).subscriptions =
        [{ id := 7, status := "active", updatedAt := 9 }] := by
  refine ⟨[PEvent.subPaymentUpdated 42 "approved", PEvent.subApprovedHook 42],
    rfl, ?_⟩
  rw [c5_activation_exactly_on_edge
    (fun _ => GatewayResult.found
      { id := 555, status := "approved", externalReference := some 42,
        dateApproved := some 100, statusDetail := "ok",
        paymentMethodId := "visa", paymentTypeId := "credit_card" })
    "555" "payment.updated" 9
    { payments := [], subscriptionPayments :=
        [{ id := 42, subscriptionId := 7, status := "pending",
           mercadopagoId := none, paidAt := none, metadata := [],
           updatedAt := 0 }],
      subscriptions := [{ id := 7, status := "pending_payment",
                          updatedAt := 0 }] }
    { payments := [], subscriptionPayments :=
        [{ id := 42, subscriptionId := 7, status := "approved",
           mercadopagoId := some "555", paidAt := some 100,
           metadata := [("mercadopago_status", "approved"),
                        ("mercadopago_status_detail", "ok"),
                        ("payment_method_id", "visa"),
                        ("payment_type_id", "credit_card"),
                        ("last_webhook_action", "payment.updated"),
                        ("last_webhook_date", "9")],
           updatedAt := 9 }],
      subscriptions := [{ id := 7, status := "active", updatedAt := 9 }] }
    [PEvent.subPaymentUpdated 42 "approved", PEvent.subApprovedHook 42] rfl]
  decide

/-! ## C6: failure semantics of webhook processing -/

/-- C6 counterexample: an exception in step 1 (the gateway fetch
rejects) is logged and re-thrown by `processPaymentWebhook`, so the
endpoint answers 500, not 200/received as the claim states. -/
theorem c6_fetch_throw_counterexample :
    (handleWebhook (fun _ => GatewayResult.throws) false
      { type := some "payment", dataId := some "1", action := "x" } 0
      { payments := [], subscriptionPayments := [], subscriptions := [] }).2.2 =
      WebhookResponse.serverError ∧
    WebhookResponse.serverError ≠ WebhookResponse.ok true true := by
  decide

/-- C6 amended: an exception during steps 1-3 is logged and re-thrown,
so the webhook endpoint responds 500; only the non-exceptional guard
outcomes — gateway resolves to no payment, to a payment without an
external reference, or to a reference matching no local record — return
silently and still produce 200/received; a structurally invalid
envelope produces 400. -/
theorem c6_failure_semantics (gw : Gateway) (updateFails : Bool)
    (pid action : String) (now : Nat) (s : PayState) (hpid : pid ≠ "") :
    (gw pid = .throws →
      handleWebhook gw updateFails
        { type := some "payment", dataId := some pid, action := action } now s =
        (s, [], .serverError)) ∧
    (gw pid = .missing →
      handleWebhook gw updateFails
        { type := some "payment", dataId := some pid, action := action } now s =
        (s, [], .ok true true)) ∧
    (∀ mp, gw pid = .found mp → mp.externalReference = none →
      handleWebhook gw updateFails
        { type := some "payment", dataId := some pid, action := action } now s =
        (s, [], .ok true true)) ∧
    (∀ mp ref, gw pid = .found mp → mp.externalReference = some ref →
      (s.subscriptionPayments.filter fun sp => sp.id == ref).head? = none →
      (s.payments.filter fun p => p.id == ref).head? = none →
      handleWebhook gw updateFails
        { type := some "payment", dataId := some pid, action := action } now s =
        (s, [], .ok true true)) ∧
    handleWebhook gw updateFails
      { type := none, dataId := some pid, action := action } now s =
      (s, [], .badRequest) := by
  have hfal : (jsFalsy (some "payment") || jsFalsy (some pid)) = false := by
    simp [jsFalsy, hpid]
  refine ⟨?_, ?_, ?_, ?_, ?_⟩
  · intro hgw
    unfold handleWebhook
    rw [if_neg (by simp [hfal])]
    rw [if_pos (by simp)]
    dsimp only [Option.getD]
    unfold processPaymentWebhook
    rw [hgw]
  · intro hgw
    unfold handleWebhook
    rw [if_neg (by simp [hfal])]
    rw [if_pos (by simp)]
    dsimp only [Option.getD]
    unfold processPaymentWebhook
    rw [hgw]
  · intro mp hgw href
    unfold handleWebhook
    rw [if_neg (by simp [hfal])]
    rw [if_pos (by simp)]
    dsimp only [Option.getD]
    unfold processPaymentWebhook
    rw [hgw]
    dsimp only
    rw [href]
  · intro mp ref hgw href hsub hpay
    unfold handleWebhook
    rw [if_neg (by simp [hfal])]
    rw [if_pos (by simp)]
    dsimp only [Option.getD]
    unfold processPaymentWebhook
    rw [hgw]
    dsimp only
    rw [href]
    dsimp only
    rw [hsub]
    dsimp only
    rw [hpay]
  · unfold handleWebhook
    rw [if_pos (by simp [jsFalsy])]

/-- C6 amended, witness: a gateway whose fetch resolves to nothing
still yields 200/received. -/
theorem c6_failure_semantics_witness :
    handleWebhook (fun _ => GatewayResult.missing) false
      { type := some "payment", dataId := some "1", action := "x" } 0
      { payments := [], subscriptionPayments := [], subscriptions := [] } =
      ({ payments := [], subscriptionPayments := [], subscriptions := [] }, [],
        .ok true true) :=
  (c6_failure_semantics (fun _ => GatewayResult.missing) false "1" "x" 0
    { payments := [], subscriptionPayments := [], subscriptions := [] }
    (by decide)).2.1 rfl

/-! ## C8: envelope validation and dispatch -/

/-- C8 counterexample: an envelope whose `type` is present but the
empty string is rejected with 400 by the JavaScript truthiness test
`!type`, although neither `type` nor `data.id` is missing — so "400 if
and only if missing" fails. -/
theorem c8_empty_type_counterexample :
    (handleWebhook (fun _ => GatewayResult.missing) false
      { type := some "", dataId := some "123", action := "x" } 0
      { payments := [], subscriptionPayments := [], subscriptions := [] }).2.2 =
      WebhookResponse.badRequest ∧
    ({ type := some "", dataId := some "123", action := "x" } : Envelope).type ≠
      none ∧
    ({ type := some "", dataId := some "123", action := "x" } : Envelope).dataId ≠
      none := by
  decide

/-- C8 amended: the handler responds 400 exactly when `type` or
`data.id` is missing *or empty* (JavaScript-falsy); for every envelope
passing that test, a type other than `'payment'` changes no state and
answers 200 with received/processed true, and a `'payment'` dispatch
that completes without throwing answers the same 200 with the processed
state. -/
theorem c8_envelope_semantics (gw : Gateway) (updateFails : Bool) (env : Envelope)
    (now : Nat) (s : PayState) :
    ((handleWebhook gw updateFails env now s).2.2 = .badRequest ↔
      (jsFalsy env.type || jsFalsy env.dataId) = true) ∧
    ((jsFalsy env.type || jsFalsy env.dataId) = false →
      env.type ≠ some "payment" →
      handleWebhook gw updateFails env now s = (s, [], .ok true true)) ∧
    (∀ s1 evs, (jsFalsy env.type || jsFalsy env.dataId) = false →
      env.type = some "payment" →
      processPaymentWebhook gw updateFails (env.dataId.getD "") env.action now s =
        .ok (s1, evs) →
      handleWebhook gw updateFails env now s = (s1, evs, .ok true true)) := by
  unfold handleWebhook
  by_cases hfal : (jsFalsy env.type || jsFalsy env.dataId) = true
  · rw [if_pos hfal]
    refine ⟨by simp [hfal], ?_, ?_⟩
    · intro hff; rw [hff] at hfal; exact Bool.noConfusion hfal
    · intro _ _ hff; rw [hff] at hfal; exact fun _ => Bool.noConfusion hfal
  · have hff : (jsFalsy env.type || jsFalsy env.dataId) = false :=
      Bool.eq_false_iff.mpr hfal
    rw [if_neg hfal]
    by_cases ht : ((env.type.getD "") == "payment") = true
    · rw [if_pos ht]
      have htype : env.type = some "payment" := by
        cases henv : env.type with
        | none => rw [henv] at ht; exact absurd ht (by decide)
        | some t =>
          rw [henv] at ht
          have : t = "payment" := by simpa using ht
          rw [this]
      cases hres : processPaymentWebhook gw updateFails (env.dataId.getD "")
          env.action now s with
      | ok p =>
        obtain ⟨s1, evs⟩ := p
        refine ⟨by simp at hff ⊢; exact hff, ?_, ?_⟩
        · intro _ hne; exact absurd htype hne
        · intro s1' evs' _ _ hproc
          simp only [Except.ok.injEq, Prod.mk.injEq] at hproc
          rw [hproc.1, hproc.2]
      | error e =>
        refine ⟨by simp at hff ⊢; exact hff, ?_, ?_⟩
        · intro _ hne; exact absurd htype hne
        · intro s1' evs' _ _ hproc
          exact Except.noConfusion hproc
    · rw [if_neg ht]
      refine ⟨by simp at hff ⊢; exact hff, fun _ _ => rfl, ?_⟩
      intro s1' evs' _ htype hproc
      rw [htype] at ht
      exact absurd (by decide : ((Option.getD (some "payment") "") == "payment")
        = true) ht

/-- C8 amended, witness: a well-formed `'subscription'` envelope is a
logged no-op answered 200 with received and processed true. -/
theorem c8_envelope_semantics_witness :
    handleWebhook (fun _ => GatewayResult.missing) false
      { type := some "subscription", dataId := some "5", action := "x" } 0
      { payments := [], subscriptionPayments := [], subscriptions := [] } =
      ({ payments := [], subscriptionPayments := [], subscriptions := [] }, [],
        .ok true true) :=
  (c8_envelope_semantics (fun _ => GatewayResult.missing) false
    { type := some "subscription", dataId := some "5", action := "x" } 0
    { payments := [], subscriptionPayments := [], subscriptions := [] }).2.1
    (by decide) (by decide)

/-! ## C10: activation failure is swallowed, payment keeps Approved -/

/-- C10: when the subscription-activation update throws, the error is
caught and swallowed: the webhook still answers 200 with both approval
events emitted, the SubscriptionPayment row keeps its newly written
`'approved'` status (no rollback), and the subscriptions table is left
untouched — so an Approved SubscriptionPayment does not guarantee an
Active subscription. -/
theorem c10_activation_failure_swallowed (gw : Gateway) (pid action : String)
    (now : Nat) (s : PayState) (mp : MPPayment) (ref : Nat)
    (sp : SubscriptionPayment) (U : List SubscriptionPayment)
    (hU : U = updWhere (fun q => q.id == sp.id)
      (fun q =>
        { q with status := mapMercadoPagoStatus mp.status,
                 mercadopagoId := some (toString mp.id),
                 paidAt := mp.dateApproved, updatedAt := now,
                 metadata := mergeMeta sp.metadata (webhookMeta mp action now) })
      s.subscriptionPayments)
    (hgw : gw pid = .found mp)
    (href : mp.externalReference = some ref)
    (hsp : (s.subscriptionPayments.filter fun x => x.id == ref).head? = some sp)
    (hmap : mapMercadoPagoStatus mp.status = "approved")
    (hnot : sp.status ≠ "approved")
    (hpid : pid ≠ "") :
    handleWebhook gw true
      { type := some "payment", dataId := some pid, action := action } now s =
      ({ s with subscriptionPayments := U },
       [PEvent.subPaymentUpdated sp.id (mapMercadoPagoStatus mp.status),
        PEvent.subApprovedHook sp.id], .ok true true) ∧
    ({ s with subscriptionPayments := U } : PayState).subscriptions =
      s.subscriptions ∧
    ∃ r, (U.filter fun x => x.id == ref).head? = some r ∧
      r.status = "approved" := by
  have hst : (sp.status != mapMercadoPagoStatus mp.status) = true := by
    rw [hmap]; exact bne_iff_ne.mpr hnot
  have happr : (mapMercadoPagoStatus mp.status == "approved" &&
      sp.status != "approved") = true := by
    rw [hmap]; simp [bne_iff_ne.mpr hnot]
  have hproc : processPaymentWebhook gw true pid action now s =
      .ok ({ s with subscriptionPayments := U },
        [PEvent.subPaymentUpdated sp.id (mapMercadoPagoStatus mp.status),
         PEvent.subApprovedHook sp.id]) := by
    unfold processPaymentWebhook
    rw [hgw]
    dsimp only
    rw [href]
    dsimp only
    rw [hsp]
    dsimp only
    rw [processSubscriptionPaymentWebhook, if_pos hst, if_pos happr]
    rw [handleSubscriptionPaymentApproved, if_pos rfl]
    rw [hU]
  refine ⟨?_, rfl, ?_⟩
  · unfold handleWebhook
    rw [if_neg (by simp [jsFalsy, hpid])]
    rw [if_pos (by simp)]
    dsimp only [Option.getD]
    rw [hproc]
  · rw [hU]
    have hcomm := head?_filter_updWhere
      (p := fun x : SubscriptionPayment => x.id == ref)
      (q := fun q : SubscriptionPayment => q.id == sp.id)
      (f := fun q : SubscriptionPayment =>
        { q with status := mapMercadoPagoStatus mp.status,
                 mercadopagoId := some (toString mp.id),
                 paidAt := mp.dateApproved, updatedAt := now,
                 metadata := mergeMeta sp.metadata (webhookMeta mp action now) })
      (by intro x; by_cases hx : (x.id == sp.id) = true <;> simp [hx]) hsp
    refine ⟨_, hcomm, ?_⟩
    rw [if_pos (show (sp.id == sp.id) = true by simp)]
    exact hmap

/-- C10 witness: with a failing subscription update, the webhook still
answers 200 and subscription 7 stays pending_payment even though its
SubscriptionPayment was just written approved. -/
theorem c10_activation_failure_swallowed_witness :
    (handleWebhook
      (fun _ => GatewayResult.found
        { id := 555, status := "approved", externalReference := some 2,
          dateApproved := some 50, statusDetail := "ok",
          paymentMethodId := "visa", paymentTypeId := "credit" })
      true { type := some "payment", dataId := some "9", action := "a" } 3
      { payments := [], subscriptionPayments :=
          [{ id := 2, subscriptionId := 7, status := "pending",
             mercadopagoId := none, paidAt := none, metadata := [],
             updatedAt := 0 }],
        subscriptions := [{ id := 7, status := "pending_payment",
                            updatedAt := 0 }] }).2.2 =
      WebhookResponse.ok true true ∧
    (handleWebhook
      (fun _ => GatewayResult.found
        { id := 555, status := "approved", externalReference := some 2,
          dateApproved := some 50, statusDetail := "ok",
          paymentMethodId := "visa", paymentTypeId := "credit" })
      true { type := some "payment", dataId := some "9", action := "a" } 3
      { payments := [], subscriptionPayments :=
          [{ id := 2, subscriptionId := 7, status := "pending",
             mercadopagoId := none, paidAt := none, metadata := [],
             updatedAt := 0 }],
        subscriptions := [{ id := 7, status := "pending_payment",
                            updatedAt := 0 }] }).1.subscriptions =
      [{ id := 7, status := "pending_payment", updatedAt := 0 }] := by
  have h := c10_activation_failure_swallowed
    (fun _ => GatewayResult.found
      { id := 555, status := "approved", externalReference := some 2,
        dateApproved := some 50, statusDetail := "ok",
        paymentMethodId := "visa", paymentTypeId := "credit" })
    "9" "a" 3
    { payments := [], subscriptionPayments :=
        [{ id := 2, subscriptionId := 7, status := "pending",
           mercadopagoId := none, paidAt := none, metadata := [],
           updatedAt := 0 }],
      subscriptions := [{ id := 7, status := "pending_payment",
                          updatedAt := 0 }] }
    { id := 555, status := "approved", externalReference := some 2,
      dateApproved := some 50, statusDetail := "ok",
      paymentMethodId := "visa", paymentTypeId := "credit" }
    2
    { id := 2, subscriptionId := 7, status := "pending",
      mercadopagoId := none, paidAt := none, metadata := [], updatedAt := 0 }
    [{ id := 2, subscriptionId := 7, status := "approved",
       mercadopagoId := some "555", paidAt := some 50,
       metadata := [("mercadopago_status", "approved"),
                    ("mercadopago_status_detail", "ok"),
                    ("payment_method_id", "visa"),
                    ("payment_type_id", "credit"),
                    ("last_webhook_action", "a"),
                    ("last_webhook_date", "3")],
       updatedAt := 3 }]
    (by decide) rfl rfl (by decide) rfl (by decide) (by decide)
  exact ⟨by rw [h.1], by rw [h.1]⟩

end DubiFitness
